import Mathlib

/-!
Verification development for the concurrent retrieval engine of this
repository: the multi-engine search aggregator in
`ohlala/search/search.py` and the web scraper in
`shandu/scraper/scraper.py`.

Network effects are modelled by passing each provider's (or each fetch
attempt's) outcome as an explicit parameter: a raised Python exception is
an `Except.error`, a normal return is `Except.ok`.  File-system state for
the cache is modelled by an explicit `CacheFile` value.  Rational numbers
stand in for Python floats (times, timeouts); all arithmetic in the code
is exact on the values the claims use.
-/

namespace Spec2Proof

/-- A Python exception as observed by the handlers in `search.py`:
a message and, for `aiohttp` response errors, an optional HTTP status
(inspected via `hasattr(e, 'status')`). -/
structure PyExc where
  msg : String
  status : Option Nat := none
deriving DecidableEq, Repr

/-- `SearchResult` dataclass from `ohlala/search/search.py`:
`{url, title, snippet, source}`. -/
structure SearchResult where
  url : String
  title : String
  snippet : String
  source : String
deriving DecidableEq, Repr

/-- `asyncio.gather(*tasks)` without `return_exceptions=True`: if every
task returns, the list of results in task order; if some task raises, the
exception propagates (we surface the first failing task in list order). -/
def gatherResults {α : Type} : List (Except PyExc α) → Except PyExc (List α)
  | [] => .ok []
  | t :: ts =>
    match t with
    | .error e => .error e
    | .ok v =>
      match gatherResults ts with
      | .error e => .error e
      | .ok vs => .ok (v :: vs)

/-- The outcome of each engine coroutine awaited by
`UnifiedSearcher.search` (`_search_duckduckgo`, `_search_bing`,
`_search_google`): each either returns a result list or raises. -/
structure EngineOutcomes where
  duckduckgo : Except PyExc (List SearchResult)
  bing : Except PyExc (List SearchResult)
  google : Except PyExc (List SearchResult)
deriving Repr

/-- `UnifiedSearcher.search` (search.py lines 671-701): build the task
list in the fixed order duckduckgo, bing, google (each included iff its
name is in `engines`), `asyncio.gather` them, extend `all_results` with
each returned list in task order, and return `all_results[:max_results]`.
There is no cache consultation, no retry, no deduplication and no
shuffle in this method. -/
def UnifiedSearcher.search (max_results : Nat) (engines : List String)
    (out : EngineOutcomes) : Except PyExc (List SearchResult) :=
  let tasks :=
    (if "duckduckgo" ∈ engines then [out.duckduckgo] else []) ++
    (if "bing" ∈ engines then [out.bing] else []) ++
    (if "google" ∈ engines then [out.google] else [])
  match gatherResults tasks with
  | .error e => .error e
  | .ok results_list => .ok (results_list.flatten.take max_results)

/-- The retry loop of `UnifiedSearcher._search_with_retry`
(search.py lines 656-669): `for attempt in range(retries)`, try the call
(attempt `i`'s outcome is `attempt i`); on success return the value; on
failure sleep and continue while `attempt < retries - 1`, otherwise
re-`raise` the exception.  If `retries = 0` the loop body never runs and
the Python function implicitly returns `None`, hence the `Option` in the
result. -/
def retryGo {α : Type} (attempt : Nat → Except PyExc α) (i : Nat) :
    Nat → Except PyExc (Option α)
  | 0 => .ok none
  | remaining + 1 =>
    match attempt i with
    | .ok v => .ok (some v)
    | .error e =>
      if remaining = 0 then .error e else retryGo attempt (i + 1) remaining

/-- `UnifiedSearcher._search_with_retry(func, *args, retries=3, delay=1)`:
run the retry loop starting at attempt 0 with `retries` attempts
remaining (`remaining = 0` in `retryGo` is `attempt == retries - 1`,
the `else: raise` arm). -/
def UnifiedSearcher.search_with_retry {α : Type} (attempt : Nat → Except PyExc α)
    (retries : Nat) : Except PyExc (Option α) :=
  retryGo attempt 0 retries

/-- The engine names accepted by the per-engine check in
`UnifiedSearcher.search_node` (search.py line 583). -/
def supported_engines : List String :=
  ["google", "duckduckgo", "bing", "wikipedia", "brave"]

/-- The fallback condition of `search_node`'s exception handler
(search.py line 604): `hasattr(e, 'status') and 400 <= e.status < 500`. -/
def is4xx (e : PyExc) : Bool :=
  match e.status with
  | some s => decide (400 ≤ s ∧ s < 500)
  | none => false

/-- The `for engine in engines` loop of `UnifiedSearcher.search_node`
(search.py lines 582-617) for one sub-query.  `fetch e` is the outcome of
searching with engine `e` (for `"google_custom"`, the outcome of
`_search_with_retry(_search_google_custom, ...)`).  An engine name outside
`supported_engines` raises `ValueError` before any try/except is entered;
a supported engine's exception is caught, with the google_custom fallback
attempted on a 4xx status when `"google_custom"` was in the original
engine list.  At the end the accumulated results are truncated to
`max_results`. -/
def searchNodeGo (max_results : Nat) (fetch : String → Except PyExc (List SearchResult))
    (hasFallback : Bool) :
    List String → List SearchResult → Except PyExc (List SearchResult)
  | [], acc => .ok (acc.take max_results)
  | engine :: rest, acc =>
    if engine ∈ supported_engines then
      match fetch engine with
      | .ok rs => searchNodeGo max_results fetch hasFallback rest (acc ++ rs)
      | .error e =>
        if is4xx e && hasFallback then
          match fetch "google_custom" with
          | .ok frs => searchNodeGo max_results fetch hasFallback rest (acc ++ frs)
          | .error _ => searchNodeGo max_results fetch hasFallback rest acc
        else
          searchNodeGo max_results fetch hasFallback rest acc
    else
      .error ⟨"Unsupported search engine: " ++ engine, none⟩

/-- `UnifiedSearcher.search_node` restricted to one sub-query
(search.py lines 570-617): remove the first `"google_custom"` from the
engine list (remembering it as the fallback engine), then run the
per-engine loop. -/
def UnifiedSearcher.search_node_query (max_results : Nat)
    (fetch : String → Except PyExc (List SearchResult))
    (engines : List String) : Except PyExc (List SearchResult) :=
  let hasCustom := "google_custom" ∈ engines
  let engines' := if hasCustom then engines.erase "google_custom" else engines
  searchNodeGo max_results fetch hasCustom engines' []

/-- The first engine of a list that the `search_node` check rejects. -/
def firstUnsupported : List String → Option String
  | [] => none
  | e :: rest => if e ∈ supported_engines then firstUnsupported rest else some e

/-- The on-disk state a cache read can encounter: no file at the key's
path, or a file with a modification time whose JSON body either parses to
a payload (`some`) or is unreadable/corrupt (`none`, the exception
path). -/
inductive CacheFile (α : Type) where
  | absent : CacheFile α
  | present (mtime : ℚ) (parsed : Option α) : CacheFile α

/-- `UnifiedSearcher._check_cache` (search.py lines 156-186): return
`None` when caching is disabled or the file does not exist; then, inside
a try/except that converts any exception to `None`, return `None` when
`time.time() - getmtime(path) > cache_ttl`, otherwise parse the JSON list
of `{url, title, snippet, source}` items (a parse failure is the
exception path). -/
def UnifiedSearcher.check_cache (cache_enabled : Bool) (cache_ttl now : ℚ)
    (file : CacheFile (List SearchResult)) : Option (List SearchResult) :=
  if !cache_enabled then none
  else
    match file with
    | .absent => none
    | .present mtime parsed =>
      if now - mtime > cache_ttl then none
      else parsed

/-- `ScrapedContent` dataclass from `shandu/scraper/scraper.py`
(lines 91-111). -/
structure ScrapedContent where
  url : String
  title : String
  text : String
  html : String
  content_type : String
  metadata : List (String × String)
  error : Option String := none
  scrape_time : ℚ := 0
deriving DecidableEq, Repr

/-- `ScrapedContent.is_successful`: the error is `None` and the text is
non-empty (`len(self.text) > 0`). -/
def ScrapedContent.is_successful (c : ScrapedContent) : Bool :=
  c.error.isNone && decide (0 < c.text.length)

/-- The JSON object `WebScraper._save_to_cache` writes for one URL
(scraper.py lines 190-200). -/
structure ScrapeCacheData where
  url : String
  title : String
  text : String
  html : String
  content_type : String
  metadata : List (String × String)
  error : Option String
  scrape_time : ℚ
deriving DecidableEq, Repr

/-- Python string slicing `s[:n]`: the first `n` characters. -/
def sliceTo (s : String) (n : Nat) : String := ⟨s.data.take n⟩

/-- `WebScraper._save_to_cache` (scraper.py lines 181-207): skip (return
`False`, write nothing) when caching is disabled or the content is not
successful; otherwise write the JSON object with `html` truncated to its
first 50000 characters and `scrape_time` replaced by `time.time()` when
it is the falsy `0.0`.  The result is the written file body (`none` when
nothing was written). -/
def WebScraper.save_to_cache (cache_enabled : Bool) (content : ScrapedContent)
    (now : ℚ) : Option ScrapeCacheData :=
  if !cache_enabled || !content.is_successful then none
  else
    some
      { url := content.url
        title := content.title
        text := content.text
        html := sliceTo content.html 50000
        content_type := content.content_type
        metadata := content.metadata
        error := content.error
        scrape_time := if content.scrape_time = 0 then now else content.scrape_time }

/-- `WebScraper._check_cache` (scraper.py lines 145-179): return `None`
when caching is disabled or the file does not exist; then, inside a
try/except that converts any exception to `None`, return `None` when
`time.time() - getmtime(path) > cache_ttl`, otherwise rebuild a
`ScrapedContent` from the parsed JSON fields (a parse failure is the
exception path). -/
def WebScraper.check_cache (cache_enabled : Bool) (cache_ttl now : ℚ)
    (file : CacheFile ScrapeCacheData) : Option ScrapedContent :=
  if !cache_enabled then none
  else
    match file with
    | .absent => none
    | .present mtime parsed =>
      if now - mtime > cache_ttl then none
      else
        match parsed with
        | none => none
        | some d =>
          some ⟨d.url, d.title, d.text, d.html, d.content_type, d.metadata,
                d.error, d.scrape_time⟩

/-- Per-domain entry of `DomainReliability.domain_metrics`
(scraper.py lines 59-66): success/fail counters, running average response
time, current timeout and a histogram of HTTP status codes. -/
structure DomainMetrics where
  success_count : Nat
  fail_count : Nat
  avg_response_time : ℚ
  timeout : ℚ
  status_codes : List (Nat × Nat)
deriving DecidableEq, Repr

/-- The fresh entry created on a domain's first observation:
`{"success_count": 0, "fail_count": 0, "avg_response_time": 0,
"timeout": DEFAULT_TIMEOUT, "status_codes": {}}` with
`DEFAULT_TIMEOUT = 10.0`. -/
def initMetrics : DomainMetrics :=
  { success_count := 0, fail_count := 0, avg_response_time := 0,
    timeout := 10, status_codes := [] }

/-- One call to `DomainReliability.update_metrics`: the success flag, the
elapsed `response_time` and the optional `status_code`. -/
structure Observation where
  success : Bool
  response_time : ℚ
  status_code : Option Nat := none
deriving DecidableEq, Repr

/-- `metrics["status_codes"][str(code)] += 1` on a string-keyed dict,
modelled on the numeric code. -/
def bumpStatus : List (Nat × Nat) → Nat → List (Nat × Nat)
  | [], c => [(c, 1)]
  | (k, n) :: rest, c =>
    if k = c then (k, n + 1) :: rest else (k, n) :: bumpStatus rest c

/-- Step 1 of `DomainReliability.update_metrics` (scraper.py lines
70-73): bump the success or the fail counter. -/
def bumpCounts (m : DomainMetrics) (success : Bool) : DomainMetrics :=
  if success then { m with success_count := m.success_count + 1 }
  else { m with fail_count := m.fail_count + 1 }

/-- Step 2 (scraper.py lines 75-79): when `response_time > 0`, fold it
into the running average with denominator
`total_requests = success_count + fail_count` (the counts after the
bump). -/
def bumpAvg (m : DomainMetrics) (response_time : ℚ) : DomainMetrics :=
  if 0 < response_time then
    let total : ℚ := (m.success_count : ℚ) + (m.fail_count : ℚ)
    { m with avg_response_time :=
        (m.avg_response_time * (total - 1) + response_time) / total }
  else m

/-- Step 3 (scraper.py lines 81-82): when `status_code` is truthy, bump
its histogram bucket. -/
def bumpHist (m : DomainMetrics) (status_code : Option Nat) : DomainMetrics :=
  match status_code with
  | some c =>
    if c ≠ 0 then { m with status_codes := bumpStatus m.status_codes c } else m
  | none => m

/-- Step 4 (scraper.py lines 85-86): when `success_count >= 3`, set
`timeout = min(30.0, max(5.0, avg_response_time * 1.5))`. -/
def adjustTimeout (m : DomainMetrics) : DomainMetrics :=
  if 3 ≤ m.success_count then
    { m with timeout := min 30 (max 5 (m.avg_response_time * (3 / 2 : ℚ))) }
  else m

/-- The per-domain body of `DomainReliability.update_metrics`
(scraper.py lines 68-86): the four sequential mutations of the metrics
dict, in source order. -/
def DomainReliability.update_metrics (m : DomainMetrics) (o : Observation) :
    DomainMetrics :=
  adjustTimeout (bumpHist (bumpAvg (bumpCounts m o.success) o.response_time) o.status_code)

/-- The whole tracker: `domain_metrics`, a dict keyed by host. -/
def DomainTable := List (String × DomainMetrics)

/-- Dict write `domain_metrics[domain] = m` (overwrite or append). -/
def setEntry : List (String × DomainMetrics) → String → DomainMetrics →
    List (String × DomainMetrics)
  | [], d, m => [(d, m)]
  | (k, v) :: rest, d, m =>
    if k = d then (k, m) :: rest else (k, v) :: setEntry rest d m

/-- `DomainReliability.update_metrics` at the tracker level
(scraper.py lines 56-86), with the `urlparse(url).netloc` host already
extracted: create the fresh entry when the domain is new, then apply the
per-domain update. -/
def DomainReliability.record (t : List (String × DomainMetrics)) (domain : String)
    (o : Observation) : List (String × DomainMetrics) :=
  let m := (t.lookup domain).getD initMetrics
  setEntry t domain (DomainReliability.update_metrics m o)

/-- `DomainReliability.get_timeout` (scraper.py lines 48-54), with the
host already extracted: the domain's stored `"timeout"` when the domain
has an entry, else `DEFAULT_TIMEOUT = 10.0`. -/
def DomainReliability.get_timeout (t : List (String × DomainMetrics))
    (domain : String) : ℚ :=
  match t.lookup domain with
  | some m => m.timeout
  | none => 10

/-- Folding a list of observations for one host into the tracker,
starting from an empty tracker. -/
def DomainReliability.recordAll (domain : String) (obs : List Observation) :
    List (String × DomainMetrics) :=
  obs.foldl (fun t o => DomainReliability.record t domain o) []

/-- The same observations folded directly into one `DomainMetrics`. -/
def recordMetrics (obs : List Observation) : DomainMetrics :=
  obs.foldl DomainReliability.update_metrics initMetrics

/-- The input-deduplication loop of `WebScraper.scrape_urls`
(scraper.py lines 608-613): walk the URLs keeping those not yet in the
`seen` set. -/
def pyDedupGo : List String → List String → List String
  | [], _ => []
  | u :: rest, seen =>
    if u ∈ seen then pyDedupGo rest seen
    else u :: pyDedupGo rest (u :: seen)

/-- `unique_urls` as computed by `scrape_urls`: dedup preserving the
first-seen order, starting from an empty seen-set. -/
def pyDedup (urls : List String) : List String := pyDedupGo urls []

/-- Modelled from the spec: "Dedupe input preserving order" — keep each
URL's first occurrence, in order of first appearance.  Stated as the
canonical recursion; compared against the source's `pyDedup` loop. -/
def firstSeenDedup : List String → List String
  | [] => []
  | u :: rest => u :: firstSeenDedup (rest.filter (fun v => v ≠ u))
termination_by l => l.length
decreasing_by
  simpa using Nat.lt_succ_of_le (List.length_filter_le _ rest)

/-- The dict comprehension `result_map = {r.url: r for r in results}`
followed by `result_map.get(u, None)` (scraper.py lines 632-633): the
last result whose `url` field equals `u`, if any. -/
def buildResultMap (results : List ScrapedContent) (u : String) :
    Option ScrapedContent :=
  results.foldl (fun acc r => if r.url = u then some r else acc) none

/-- `WebScraper.scrape_urls` (scraper.py lines 592-682) on the reachable
path.  `completed` is the list of task results gathered by the
`as_completed` loop in completion order: one entry per task that finished
inside the 60-second batch deadline (a task that times out or whose
exception is swallowed by the inner handlers contributes nothing).  After
the loop the results are keyed by their `url` field and looked up per
deduplicated input URL, with `None` entries replaced by a
`ScrapedContent` carrying the error `"未能完成爬取"`.  The outer
`except asyncio.TimeoutError` branch is unreachable: `as_completed`
raises its timeout at the `await task` sites, where the inner handler
already catches it. -/
def WebScraper.scrape_urls (urls : List String)
    (completed : List ScrapedContent) (now : ℚ) : List ScrapedContent :=
  if urls.isEmpty then []
  else
    let unique_urls := pyDedup urls
    unique_urls.map fun u =>
      match buildResultMap completed u with
      | some r => r
      | none =>
        { url := u, title := "", text := "", html := "", content_type := "",
          metadata := [], error := some "未能完成爬取", scrape_time := now }

/-! ## Helper lemmas -/

theorem gatherResults_all_ok {α : Type} (ts : List (Except PyExc α))
    (h : ∀ t ∈ ts, ∃ v, t = .ok v) : ∃ vs, gatherResults ts = .ok vs := by
  induction ts with
  | nil => exact ⟨[], rfl⟩
  | cons t ts ih =>
    obtain ⟨v, hv⟩ := h t (by simp)
    obtain ⟨vs, hvs⟩ := ih fun t ht => h t (by simp [ht])
    exact ⟨v :: vs, by simp [gatherResults, hv, hvs]⟩

theorem search_eq_of_all_ok (m : Nat) (out : EngineOutcomes)
    (dd b g : List SearchResult) (h1 : out.duckduckgo = .ok dd)
    (h2 : out.bing = .ok b) (h3 : out.google = .ok g) :
    UnifiedSearcher.search m ["duckduckgo", "bing", "google"] out =
      .ok ((dd ++ b ++ g).take m) := by
  simp [UnifiedSearcher.search, gatherResults, h1, h2, h3, List.append_assoc]

theorem searchNodeGo_error_of_firstUnsupported (m : Nat)
    (fetch : String → Except PyExc (List SearchResult)) (fb : Bool)
    (l : List String) (e : String) (h : firstUnsupported l = some e) :
    ∀ acc, searchNodeGo m fetch fb l acc =
      .error ⟨"Unsupported search engine: " ++ e, none⟩ := by
  induction l with
  | nil => simp [firstUnsupported] at h
  | cons engine rest ih =>
    intro acc
    by_cases hsup : engine ∈ supported_engines
    · rw [firstUnsupported, if_pos hsup] at h
      rw [searchNodeGo, if_pos hsup]
      cases hfe : fetch engine with
      | ok rs => exact ih h _
      | error ex =>
        dsimp only
        by_cases hfb : (is4xx ex && fb) = true
        · rw [if_pos hfb]
          cases fetch "google_custom" with
          | ok frs => exact ih h _
          | error _ => exact ih h _
        · rw [if_neg hfb]
          exact ih h _
    · rw [firstUnsupported, if_neg hsup] at h
      rw [searchNodeGo, if_neg hsup]
      cases h
      rfl

theorem searchNodeGo_ok_of_all_supported (m : Nat)
    (fetch : String → Except PyExc (List SearchResult)) (fb : Bool)
    (l : List String) (h : ∀ e ∈ l, e ∈ supported_engines) :
    ∀ acc, ∃ rs, searchNodeGo m fetch fb l acc = .ok rs := by
  induction l with
  | nil => exact fun acc => ⟨acc.take m, rfl⟩
  | cons engine rest ih =>
    intro acc
    have hsup : engine ∈ supported_engines := h engine (by simp)
    have hrest : ∀ e ∈ rest, e ∈ supported_engines := fun e he => h e (by simp [he])
    rw [searchNodeGo, if_pos hsup]
    cases fetch engine with
    | ok rs => exact ih hrest _
    | error ex =>
      dsimp only
      by_cases hfb : (is4xx ex && fb) = true
      · rw [if_pos hfb]
        cases fetch "google_custom" with
        | ok frs => exact ih hrest _
        | error _ => exact ih hrest _
      · rw [if_neg hfb]
        exact ih hrest _

theorem retryGo_all_fail {α : Type} (attempt : Nat → Except PyExc α) :
    ∀ remaining i, 0 < remaining →
      (∀ j, j < remaining → ∃ ex, attempt (i + j) = .error ex) →
      ∃ ex, attempt (i + (remaining - 1)) = .error ex ∧
        retryGo attempt i remaining = .error ex := by
  intro remaining
  induction remaining with
  | zero => omega
  | succ r ih =>
    intro i _ hall
    obtain ⟨ex0, hex0⟩ := hall 0 (by omega)
    cases r with
    | zero =>
      refine ⟨ex0, by simpa using hex0, ?_⟩
      simp only [retryGo]
      rw [show i + 0 = i from rfl] at hex0
      rw [hex0]
      rfl
    | succ r' =>
      obtain ⟨ex, hex, hrun⟩ := ih (i + 1) (by omega)
        (fun j hj => by
          obtain ⟨exj, hexj⟩ := hall (j + 1) (by omega)
          exact ⟨exj, by rw [show i + 1 + j = i + (j + 1) by omega]; exact hexj⟩)
      refine ⟨ex, ?_, ?_⟩
      · rw [show i + (r' + 1 + 1 - 1) = i + 1 + (r' + 1 - 1) by omega]
        exact hex
      · simp only [retryGo]
        rw [show i + 0 = i from rfl] at hex0
        rw [hex0]
        simpa using hrun

theorem pyDedupGo_congr (l : List String) :
    ∀ s1 s2, (∀ x, x ∈ s1 ↔ x ∈ s2) → pyDedupGo l s1 = pyDedupGo l s2 := by
  induction l with
  | nil => intro s1 s2 _; rfl
  | cons u rest ih =>
    intro s1 s2 hmem
    by_cases hu : u ∈ s1
    · rw [pyDedupGo, if_pos hu, pyDedupGo, if_pos ((hmem u).mp hu)]
      exact ih s1 s2 hmem
    · rw [pyDedupGo, if_neg hu, pyDedupGo, if_neg (fun hc => hu ((hmem u).mpr hc))]
      refine congrArg (u :: ·) (ih _ _ fun x => ?_)
      simp [hmem x]

theorem pyDedupGo_cons_seen (l : List String) :
    ∀ a seen, pyDedupGo l (a :: seen) =
      pyDedupGo (l.filter (fun v => v ≠ a)) seen := by
  induction l with
  | nil => intro a seen; rfl
  | cons u rest ih =>
    intro a seen
    by_cases hua : u = a
    · subst hua
      rw [pyDedupGo, if_pos (by simp)]
      rw [show (u :: rest).filter (fun v => v ≠ u) = rest.filter (fun v => v ≠ u) by simp]
      exact ih u seen
    · rw [show (u :: rest).filter (fun v => v ≠ a) =
            u :: rest.filter (fun v => v ≠ a) by simp [hua]]
      by_cases hu : u ∈ seen
      · rw [pyDedupGo, if_pos (by simp [hu]), pyDedupGo, if_pos hu]
        exact ih a seen
      · rw [pyDedupGo, if_neg (by simp [hua, hu]), pyDedupGo, if_neg hu]
        refine congrArg (u :: ·) ?_
        rw [pyDedupGo_congr rest (u :: a :: seen) (a :: u :: seen) (by intro x; simp; tauto)]
        exact ih a (u :: seen)

theorem pyDedup_eq_firstSeenDedup (urls : List String) :
    pyDedup urls = firstSeenDedup urls := by
  induction urls using firstSeenDedup.induct with
  | case1 => simp [pyDedup, pyDedupGo, firstSeenDedup]
  | case2 u rest ih =>
    rw [firstSeenDedup]
    show pyDedupGo (u :: rest) [] = _
    rw [pyDedupGo, if_neg (by simp)]
    rw [pyDedupGo_cons_seen rest u []]
    exact congrArg (u :: ·) ih

theorem mem_firstSeenDedup (x : String) (l : List String) :
    x ∈ firstSeenDedup l ↔ x ∈ l := by
  induction l using firstSeenDedup.induct with
  | case1 => simp [firstSeenDedup]
  | case2 u rest ih =>
    rw [firstSeenDedup]
    by_cases hx : x = u
    · simp [hx]
    · simp only [ne_eq, decide_not] at ih ⊢
      simp only [List.mem_cons, hx, false_or]
      rw [ih, List.mem_filter]
      simp [hx]

theorem nodup_firstSeenDedup (l : List String) : (firstSeenDedup l).Nodup := by
  induction l using firstSeenDedup.induct with
  | case1 => simp [firstSeenDedup]
  | case2 u rest ih =>
    rw [firstSeenDedup]
    refine List.nodup_cons.mpr ⟨?_, ih⟩
    rw [mem_firstSeenDedup]
    simp [List.mem_filter]

theorem toFinset_firstSeenDedup (l : List String) :
    (firstSeenDedup l).toFinset = l.toFinset := by
  ext x
  simp [List.mem_toFinset, mem_firstSeenDedup]

theorem length_firstSeenDedup (l : List String) :
    (firstSeenDedup l).length = l.toFinset.card := by
  rw [← toFinset_firstSeenDedup, List.toFinset_card_of_nodup (nodup_firstSeenDedup l)]

theorem buildResultMap_fold_inv (u : String) (results : List ScrapedContent) :
    ∀ acc r,
      results.foldl (fun acc r => if r.url = u then some r else acc) acc = some r →
      (acc = some r ∨ r ∈ results) ∧ r.url = u ∨ acc = some r := by
  induction results with
  | nil => intro acc r h; right; exact h
  | cons c rest ih =>
    intro acc r h
    rw [List.foldl_cons] at h
    rcases ih _ r h with ⟨hacc, hurl⟩ | hacc
    · rcases hacc with hacc | hmem
      · by_cases hc : c.url = u
        · rw [if_pos hc] at hacc
          cases hacc
          exact Or.inl ⟨Or.inr (by simp), hurl⟩
        · rw [if_neg hc] at hacc
          exact Or.inr hacc
      · exact Or.inl ⟨Or.inr (by simp [hmem]), hurl⟩
    · by_cases hc : c.url = u
      · rw [if_pos hc] at hacc
        cases hacc
        exact Or.inl ⟨Or.inr (by simp), hc⟩
      · rw [if_neg hc] at hacc
        exact Or.inr hacc

theorem buildResultMap_some (u : String) (results : List ScrapedContent)
    (r : ScrapedContent) (h : buildResultMap results u = some r) :
    r ∈ results ∧ r.url = u := by
  rcases buildResultMap_fold_inv u results none r h with ⟨hacc, hurl⟩ | hacc
  · rcases hacc with hacc | hmem
    · cases hacc
    · exact ⟨hmem, hurl⟩
  · cases hacc

theorem buildResultMap_none (u : String) (results : List ScrapedContent)
    (h : buildResultMap results u = none) : ∀ c ∈ results, c.url ≠ u := by
  suffices hgen : ∀ (l : List ScrapedContent) acc,
      l.foldl (fun acc r => if r.url = u then some r else acc) acc = none →
      acc = none ∧ ∀ c ∈ l, c.url ≠ u by
    exact (hgen results none h).2
  intro l
  induction l with
  | nil => intro acc h; exact ⟨h, by simp⟩
  | cons c rest ih =>
    intro acc h
    rw [List.foldl_cons] at h
    obtain ⟨hacc, hrest⟩ := ih _ h
    by_cases hc : c.url = u
    · rw [if_pos hc] at hacc; cases hacc
    · rw [if_neg hc] at hacc
      refine ⟨hacc, ?_⟩
      intro d hd
      rcases List.mem_cons.mp hd with hdc | hdr
      · subst hdc; exact hc
      · exact hrest d hdr

theorem bumpCounts_success_count (m : DomainMetrics) (b : Bool) :
    (bumpCounts m b).success_count = m.success_count + (if b then 1 else 0) := by
  cases b <;> simp [bumpCounts]

theorem bumpCounts_fail_count (m : DomainMetrics) (b : Bool) :
    (bumpCounts m b).fail_count = m.fail_count + (if b then 0 else 1) := by
  cases b <;> simp [bumpCounts]

theorem bumpCounts_avg (m : DomainMetrics) (b : Bool) :
    (bumpCounts m b).avg_response_time = m.avg_response_time := by
  cases b <;> simp [bumpCounts]

theorem bumpCounts_timeout (m : DomainMetrics) (b : Bool) :
    (bumpCounts m b).timeout = m.timeout := by
  cases b <;> simp [bumpCounts]

theorem bumpAvg_counts (m : DomainMetrics) (rt : ℚ) :
    (bumpAvg m rt).success_count = m.success_count ∧
      (bumpAvg m rt).fail_count = m.fail_count ∧
      (bumpAvg m rt).timeout = m.timeout := by
  rw [bumpAvg]
  split_ifs <;> simp

theorem bumpAvg_avg_pos (m : DomainMetrics) (rt : ℚ) (h : 0 < rt) :
    (bumpAvg m rt).avg_response_time =
      (m.avg_response_time * (((m.success_count : ℚ) + (m.fail_count : ℚ)) - 1) + rt) /
        ((m.success_count : ℚ) + (m.fail_count : ℚ)) := by
  rw [bumpAvg, if_pos h]

theorem bumpHist_eq (m : DomainMetrics) (sc : Option Nat) :
    (bumpHist m sc).success_count = m.success_count ∧
      (bumpHist m sc).fail_count = m.fail_count ∧
      (bumpHist m sc).avg_response_time = m.avg_response_time ∧
      (bumpHist m sc).timeout = m.timeout := by
  rcases sc with _ | c
  · simp [bumpHist]
  · rw [bumpHist]
    split_ifs <;> simp

theorem adjustTimeout_eq (m : DomainMetrics) :
    (adjustTimeout m).success_count = m.success_count ∧
      (adjustTimeout m).fail_count = m.fail_count ∧
      (adjustTimeout m).avg_response_time = m.avg_response_time ∧
      (adjustTimeout m).timeout =
        (if 3 ≤ m.success_count then
          min 30 (max 5 (m.avg_response_time * (3 / 2 : ℚ))) else m.timeout) := by
  rw [adjustTimeout]
  split_ifs <;> simp

theorem update_metrics_success_count (m : DomainMetrics) (o : Observation) :
    (DomainReliability.update_metrics m o).success_count =
      m.success_count + (if o.success then 1 else 0) := by
  rw [DomainReliability.update_metrics, (adjustTimeout_eq _).1, (bumpHist_eq _ _).1,
    (bumpAvg_counts _ _).1, bumpCounts_success_count]

theorem update_metrics_fail_count (m : DomainMetrics) (o : Observation) :
    (DomainReliability.update_metrics m o).fail_count =
      m.fail_count + (if o.success then 0 else 1) := by
  rw [DomainReliability.update_metrics, (adjustTimeout_eq _).2.1, (bumpHist_eq _ _).2.1,
    (bumpAvg_counts _ _).2.1, bumpCounts_fail_count]

theorem update_metrics_avg_eq (m : DomainMetrics) (o : Observation) :
    (DomainReliability.update_metrics m o).avg_response_time =
      (bumpAvg (bumpCounts m o.success) o.response_time).avg_response_time := by
  rw [DomainReliability.update_metrics, (adjustTimeout_eq _).2.2.1, (bumpHist_eq _ _).2.2.1]

theorem update_metrics_timeout_eq (m : DomainMetrics) (o : Observation) :
    (DomainReliability.update_metrics m o).timeout =
      if 3 ≤ (DomainReliability.update_metrics m o).success_count then
        min 30 (max 5
          ((DomainReliability.update_metrics m o).avg_response_time * (3 / 2 : ℚ)))
      else m.timeout := by
  have hsc : (DomainReliability.update_metrics m o).success_count =
      (bumpHist (bumpAvg (bumpCounts m o.success) o.response_time) o.status_code).success_count := by
    rw [DomainReliability.update_metrics, (adjustTimeout_eq _).1]
  have havg : (DomainReliability.update_metrics m o).avg_response_time =
      (bumpHist (bumpAvg (bumpCounts m o.success) o.response_time) o.status_code).avg_response_time := by
    rw [DomainReliability.update_metrics, (adjustTimeout_eq _).2.2.1]
  rw [hsc, havg, DomainReliability.update_metrics, (adjustTimeout_eq _).2.2.2,
    (bumpHist_eq _ _).2.2.2, (bumpAvg_counts _ _).2.2, bumpCounts_timeout]

theorem update_metrics_avg_pos (m : DomainMetrics) (o : Observation)
    (h : 0 < o.response_time) :
    (DomainReliability.update_metrics m o).avg_response_time *
        (((m.success_count + m.fail_count : ℕ) : ℚ) + 1) =
      m.avg_response_time * ((m.success_count + m.fail_count : ℕ) : ℚ) +
        o.response_time := by
  rw [update_metrics_avg_eq, bumpAvg_avg_pos _ _ h, bumpCounts_avg,
    bumpCounts_success_count, bumpCounts_fail_count]
  have key : ∀ a b : ℚ, a + b = ((m.success_count + m.fail_count : ℕ) : ℚ) + 1 →
      (m.avg_response_time * (a + b - 1) + o.response_time) / (a + b) *
          (((m.success_count + m.fail_count : ℕ) : ℚ) + 1) =
        m.avg_response_time * ((m.success_count + m.fail_count : ℕ) : ℚ) +
          o.response_time := by
    intro a b hab
    have hne : ((m.success_count + m.fail_count : ℕ) : ℚ) + 1 ≠ 0 := by positivity
    rw [hab, div_mul_cancel₀ _ hne]
    ring
  cases ho : o.success <;> simp only [if_true, if_false, Bool.false_eq_true] <;>
    apply key <;> push_cast <;> ring

theorem recordMetrics_fold_spec (obs : List Observation) :
    ∀ m : DomainMetrics, (∀ o ∈ obs, 0 < o.response_time) →
      ((obs.foldl DomainReliability.update_metrics m).success_count +
          (obs.foldl DomainReliability.update_metrics m).fail_count =
        m.success_count + m.fail_count + obs.length) ∧
      (obs.foldl DomainReliability.update_metrics m).avg_response_time *
          (((m.success_count + m.fail_count : ℕ) : ℚ) + (obs.length : ℚ)) =
        m.avg_response_time * ((m.success_count + m.fail_count : ℕ) : ℚ) +
          (obs.map (·.response_time)).sum := by
  induction obs with
  | nil => intro m _; simp
  | cons o rest ih =>
    intro m hpos
    have hpos0 : 0 < o.response_time := hpos o (by simp)
    have hposr : ∀ o ∈ rest, 0 < o.response_time := fun o ho => hpos o (by simp [ho])
    simp only [List.foldl_cons]
    obtain ⟨ihc, iha⟩ := ih (DomainReliability.update_metrics m o) hposr
    have hsc := update_metrics_success_count m o
    have hfc := update_metrics_fail_count m o
    have hcount : (DomainReliability.update_metrics m o).success_count +
        (DomainReliability.update_metrics m o).fail_count =
        m.success_count + m.fail_count + 1 := by
      rw [hsc, hfc]; cases o.success <;> simp <;> omega
    constructor
    · rw [ihc, hcount]; simp; omega
    · rw [hcount] at iha
      have havg := update_metrics_avg_pos m o hpos0
      have hlen : ((m.success_count + m.fail_count + 1 : ℕ) : ℚ) + (rest.length : ℚ) =
          ((m.success_count + m.fail_count : ℕ) : ℚ) + ((o :: rest).length : ℚ) := by
        push_cast [List.length_cons]; ring
      rw [hlen] at iha
      rw [iha]
      have hlen2 : ((m.success_count + m.fail_count + 1 : ℕ) : ℚ) =
          ((m.success_count + m.fail_count : ℕ) : ℚ) + 1 := by push_cast; ring
      rw [hlen2] at iha ⊢
      simp only [List.map_cons, List.sum_cons]
      linarith [havg]

theorem recordMetrics_avg_spec (obs : List Observation)
    (hpos : ∀ o ∈ obs, 0 < o.response_time) :
    (recordMetrics obs).avg_response_time * (obs.length : ℚ) =
      (obs.map (·.response_time)).sum := by
  have h := recordMetrics_fold_spec obs initMetrics hpos
  simpa [recordMetrics, initMetrics] using h.2

theorem lookup_setEntry_self (t : List (String × DomainMetrics)) (d : String)
    (m : DomainMetrics) : (setEntry t d m).lookup d = some m := by
  induction t with
  | nil => simp [setEntry, List.lookup]
  | cons kv rest ih =>
    obtain ⟨k, v⟩ := kv
    by_cases hk : k = d
    · subst hk
      simp [setEntry, List.lookup]
    · rw [setEntry, if_neg hk]
      rw [List.lookup]
      have : (d == k) = false := beq_false_of_ne (Ne.symm hk)
      rw [this]
      exact ih

theorem recordAll_fold_lookup (d : String) (obs : List Observation) :
    ∀ (t : List (String × DomainMetrics)) (m : DomainMetrics), t.lookup d = some m →
      (obs.foldl (fun t o => DomainReliability.record t d o) t).lookup d =
        some (obs.foldl DomainReliability.update_metrics m) := by
  induction obs with
  | nil => intro t m h; simpa using h
  | cons o rest ih =>
    intro t m h
    simp only [List.foldl_cons]
    apply ih
    simp only [DomainReliability.record, h, Option.getD_some]
    exact lookup_setEntry_self t d (DomainReliability.update_metrics m o)

theorem recordAll_lookup_cons (d : String) (o : Observation)
    (obs : List Observation) :
    (DomainReliability.recordAll d (o :: obs)).lookup d =
      some (recordMetrics (o :: obs)) := by
  rw [DomainReliability.recordAll, List.foldl_cons]
  have hbase : (DomainReliability.record [] d o).lookup d =
      some (DomainReliability.update_metrics initMetrics o) := by
    simp only [DomainReliability.record, List.lookup_nil, Option.getD_none]
    exact lookup_setEntry_self [] d _
  have := recordAll_fold_lookup d obs (DomainReliability.record [] d o)
    (DomainReliability.update_metrics initMetrics o) hbase
  rw [this]
  rfl

/-! ## Claim theorems -/

/-- C1 counterexample: with the default engine list, a DuckDuckGo fetch
that raises after its retries makes `UnifiedSearcher.search` itself raise
(the `asyncio.gather` call has no `return_exceptions`), instead of
returning a result list in which that provider contributes an empty
list. -/
theorem C1_counterexample :
    UnifiedSearcher.search 10 ["duckduckgo", "bing", "google"]
        ⟨.error ⟨"DuckDuckGo search returned status code 500", some 500⟩,
         .ok [⟨"http://b", "B", "", "Bing"⟩], .ok []⟩ =
      .error ⟨"DuckDuckGo search returned status code 500", some 500⟩ := rfl

/-- C1 (amended): when a selected provider's fetch raises, the exception
propagates out of `UnifiedSearcher.search` to the caller; the failing
provider is not replaced by an empty result list. -/
theorem C1_search_propagates_provider_failure (m : Nat) (engines : List String)
    (out : EngineOutcomes) (e : PyExc) (hdd : "duckduckgo" ∈ engines)
    (hfail : out.duckduckgo = .error e) :
    UnifiedSearcher.search m engines out = .error e := by
  simp only [UnifiedSearcher.search]
  rw [if_pos hdd, hfail]
  rfl

/-- C1 witness: the amended theorem applied at a concrete failing
outcome. -/
theorem C1_witness :
    UnifiedSearcher.search 5 ["duckduckgo", "bing"]
        ⟨.error ⟨"timeout", none⟩, .ok [], .ok []⟩ = .error ⟨"timeout", none⟩ :=
  C1_search_propagates_provider_failure 5 ["duckduckgo", "bing"] _ _ (by simp) rfl

/-- C2 counterexample: two providers returning the same URL make the
aggregate output of `UnifiedSearcher.search` carry that URL twice — the
method performs no deduplication. -/
theorem C2_counterexample :
    UnifiedSearcher.search 10 ["duckduckgo", "bing", "google"]
        ⟨.ok [⟨"http://a", "A", "s1", "DuckDuckGo"⟩],
         .ok [⟨"http://a", "A2", "s2", "Bing"⟩], .ok []⟩ =
      .ok [⟨"http://a", "A", "s1", "DuckDuckGo"⟩, ⟨"http://a", "A2", "s2", "Bing"⟩] ∧
    ((UnifiedSearcher.search 10 ["duckduckgo", "bing", "google"]
        ⟨.ok [⟨"http://a", "A", "s1", "DuckDuckGo"⟩],
         .ok [⟨"http://a", "A2", "s2", "Bing"⟩], .ok []⟩).toOption.getD []).countP
        (fun r => r.url == "http://a") = 2 :=
  ⟨rfl, rfl⟩

/-- C2 (amended): `UnifiedSearcher.search` does not deduplicate by URL:
when every selected provider succeeds and the combined results fit in
`max_results`, the output is exactly the concatenation of the provider
lists, with repeated URLs retained. -/
theorem C2_no_dedup (m : Nat) (out : EngineOutcomes) (dd b g : List SearchResult)
    (h1 : out.duckduckgo = .ok dd) (h2 : out.bing = .ok b)
    (h3 : out.google = .ok g) (hfit : dd.length + b.length + g.length ≤ m) :
    UnifiedSearcher.search m ["duckduckgo", "bing", "google"] out =
      .ok (dd ++ b ++ g) := by
  rw [search_eq_of_all_ok m out dd b g h1 h2 h3]
  congr 1
  apply List.take_of_length_le
  simp only [List.length_append]
  omega

/-- C2 witness: the amended theorem applied at a concrete duplicated
input. -/
theorem C2_witness :
    UnifiedSearcher.search 5 ["duckduckgo", "bing", "google"]
        ⟨.ok [⟨"http://a", "A", "s1", "DuckDuckGo"⟩],
         .ok [⟨"http://a", "A2", "s2", "Bing"⟩], .ok []⟩ =
      .ok [⟨"http://a", "A", "s1", "DuckDuckGo"⟩, ⟨"http://a", "A2", "s2", "Bing"⟩] :=
  C2_no_dedup 5 _ _ _ _ rfl rfl rfl (by decide)

/-- C4 counterexample: a fetch function failing on every attempt makes
`_search_with_retry` re-raise the last exception after its 3 attempts —
the caller sees a propagated exception, not an empty result. -/
theorem C4_counterexample :
    UnifiedSearcher.search_with_retry
        (fun _ => (Except.error ⟨"Connection refused", none⟩ :
          Except PyExc (List SearchResult))) 3 =
      .error ⟨"Connection refused", none⟩ := rfl

/-- C4 (amended): when every attempt fails, `_search_with_retry`'s loop
ends in the `else: raise` arm, propagating the exception of the final
attempt (`attempt retries - 1`) to the caller. -/
theorem C4_retry_reraises {α : Type} (attempt : Nat → Except PyExc α)
    (retries : Nat) (hpos : 0 < retries)
    (hfail : ∀ j, j < retries → ∃ ex, attempt j = .error ex) :
    ∃ ex, attempt (retries - 1) = .error ex ∧
      UnifiedSearcher.search_with_retry attempt retries = .error ex := by
  have h := retryGo_all_fail attempt retries 0 hpos
    (fun j hj => by simpa using hfail j hj)
  simpa [UnifiedSearcher.search_with_retry] using h

/-- C4 witness: the amended theorem applied to an always-failing fetch
with the source's default of 3 attempts. -/
theorem C4_witness :
    ∃ ex, (fun _ => (Except.error ⟨"HTTP 429", some 429⟩ :
          Except PyExc (List SearchResult))) (3 - 1) = .error ex ∧
      UnifiedSearcher.search_with_retry
          (fun _ => (Except.error ⟨"HTTP 429", some 429⟩ :
            Except PyExc (List SearchResult))) 3 = .error ex :=
  C4_retry_reraises _ 3 (by omega) (fun j _ => ⟨⟨"HTTP 429", some 429⟩, rfl⟩)

/-- C5 counterexample: the spec's merge scenario (providers return
`[a,b]`, `[b,c]`, `[c,d]`) with `max_results = 2` deterministically
returns exactly the first provider's results in concatenation order —
there is no shuffle, and the kept prefix always favors the fixed engine
order. -/
theorem C5_counterexample :
    UnifiedSearcher.search 2 ["duckduckgo", "bing", "google"]
        ⟨.ok [⟨"http://a", "a", "", "DuckDuckGo"⟩, ⟨"http://b", "b", "", "DuckDuckGo"⟩],
         .ok [⟨"http://b", "b", "", "Bing"⟩, ⟨"http://c", "c", "", "Bing"⟩],
         .ok [⟨"http://c", "c", "", "Google"⟩, ⟨"http://d", "d", "", "Google"⟩]⟩ =
      .ok [⟨"http://a", "a", "", "DuckDuckGo"⟩, ⟨"http://b", "b", "", "DuckDuckGo"⟩] := rfl

/-- C5 (amended): `UnifiedSearcher.search` performs no shuffle: when all
selected providers succeed, the result is deterministically the first
`max_results` elements of the concatenation duckduckgo ++ bing ++ google,
hence always a prefix of that concatenation. -/
theorem C5_no_shuffle (m : Nat) (out : EngineOutcomes) (dd b g : List SearchResult)
    (h1 : out.duckduckgo = .ok dd) (h2 : out.bing = .ok b)
    (h3 : out.google = .ok g) :
    UnifiedSearcher.search m ["duckduckgo", "bing", "google"] out =
        .ok ((dd ++ b ++ g).take m) ∧
      (dd ++ b ++ g).take m <+: dd ++ b ++ g :=
  ⟨search_eq_of_all_ok m out dd b g h1 h2 h3, List.take_prefix m _⟩

/-- C5 witness: the amended theorem applied at the merge scenario with
`max_results = 3`. -/
theorem C5_witness :
    UnifiedSearcher.search 3 ["duckduckgo", "bing", "google"]
        ⟨.ok [⟨"http://a", "a", "", "DuckDuckGo"⟩, ⟨"http://b", "b", "", "DuckDuckGo"⟩],
         .ok [⟨"http://b", "b", "", "Bing"⟩, ⟨"http://c", "c", "", "Bing"⟩],
         .ok []⟩ =
      .ok [⟨"http://a", "a", "", "DuckDuckGo"⟩, ⟨"http://b", "b", "", "DuckDuckGo"⟩,
           ⟨"http://b", "b", "", "Bing"⟩] :=
  ((C5_no_shuffle 3 _ _ _ _ rfl rfl rfl).1).trans (by rfl)

/-- C9 counterexample: an engine name outside the supported set makes
`search_node`'s per-query loop raise
`ValueError("Unsupported search engine: ...")` instead of skipping it
with a warning. -/
theorem C9_counterexample :
    UnifiedSearcher.search_node_query 10 (fun _ => .ok []) ["customengine"] =
      .error ⟨"Unsupported search engine: customengine", none⟩ := rfl

/-- C9 (amended): in `search_node` the first unsupported engine name (of
the list after removing `google_custom`) raises a `ValueError` that fails
the whole call; in `UnifiedSearcher.search`, by contrast, names outside
duckduckgo/bing/google are silently ignored (no warning) and never make
the call fail when the selected providers succeed. -/
theorem C9_unsupported_engine_raises (m : Nat)
    (fetch : String → Except PyExc (List SearchResult)) (engines : List String)
    (e : String) (out : EngineOutcomes) (dd b g : List SearchResult)
    (hu : firstUnsupported
        (if "google_custom" ∈ engines then engines.erase "google_custom"
         else engines) = some e)
    (h1 : out.duckduckgo = .ok dd) (h2 : out.bing = .ok b)
    (h3 : out.google = .ok g) :
    UnifiedSearcher.search_node_query m fetch engines =
        .error ⟨"Unsupported search engine: " ++ e, none⟩ ∧
      ∃ l, UnifiedSearcher.search m engines out = .ok l := by
  constructor
  · simp only [UnifiedSearcher.search_node_query]
    exact searchNodeGo_error_of_firstUnsupported m fetch _ _ e hu []
  · simp only [UnifiedSearcher.search]
    obtain ⟨vs, hvs⟩ := gatherResults_all_ok
      ((if "duckduckgo" ∈ engines then [out.duckduckgo] else []) ++
       (if "bing" ∈ engines then [out.bing] else []) ++
       (if "google" ∈ engines then [out.google] else []))
      (by
        intro t ht
        simp only [List.mem_append] at ht
        rcases ht with (ht | ht) | ht
        · split at ht
          · simp only [List.mem_singleton] at ht
            exact ⟨dd, by rw [ht, h1]⟩
          · simp at ht
        · split at ht
          · simp only [List.mem_singleton] at ht
            exact ⟨b, by rw [ht, h2]⟩
          · simp at ht
        · split at ht
          · simp only [List.mem_singleton] at ht
            exact ⟨g, by rw [ht, h3]⟩
          · simp at ht)
    rw [hvs]
    exact ⟨_, rfl⟩

/-- C9 witness: the amended theorem applied at a concrete engine list
holding an unknown name. -/
theorem C9_witness :
    UnifiedSearcher.search_node_query 10 (fun _ => .ok []) ["foo", "duckduckgo"] =
        .error ⟨"Unsupported search engine: foo", none⟩ ∧
      ∃ l, UnifiedSearcher.search 10 ["foo", "duckduckgo"]
          ⟨.ok [], .ok [], .ok []⟩ = .ok l :=
  C9_unsupported_engine_raises 10 (fun _ => .ok []) ["foo", "duckduckgo"] "foo"
    ⟨.ok [], .ok [], .ok []⟩ [] [] [] rfl rfl rfl rfl

theorem foldl_update_success_count (obs : List Observation) :
    ∀ m : DomainMetrics,
      (obs.foldl DomainReliability.update_metrics m).success_count =
        m.success_count + obs.countP (fun o => o.success) := by
  induction obs with
  | nil => intro m; simp
  | cons o rest ih =>
    intro m
    simp only [List.foldl_cons, List.countP_cons]
    rw [ih, update_metrics_success_count]
    by_cases ho : o.success = true
    · simp [ho]
      omega
    · simp [ho]

theorem foldl_update_timeout_inv (obs : List Observation) :
    ∀ m : DomainMetrics,
      (m.success_count < 3 → m.timeout = 10) →
      (3 ≤ m.success_count →
        m.timeout = min 30 (max 5 (m.avg_response_time * (3 / 2 : ℚ)))) →
      ((obs.foldl DomainReliability.update_metrics m).success_count < 3 →
        (obs.foldl DomainReliability.update_metrics m).timeout = 10) ∧
      (3 ≤ (obs.foldl DomainReliability.update_metrics m).success_count →
        (obs.foldl DomainReliability.update_metrics m).timeout =
          min 30 (max 5
            ((obs.foldl DomainReliability.update_metrics m).avg_response_time *
              (3 / 2 : ℚ)))) := by
  induction obs with
  | nil => intro m h1 h2; exact ⟨h1, h2⟩
  | cons o rest ih =>
    intro m h1 h2
    simp only [List.foldl_cons]
    apply ih
    · intro hlt
      rw [update_metrics_timeout_eq, if_neg (by omega)]
      apply h1
      have hsc := update_metrics_success_count m o
      by_cases ho : o.success = true <;> simp [ho] at hsc <;> omega
    · intro hge
      rw [update_metrics_timeout_eq, if_pos hge]

/-- C3: `scrape_urls` returns, for any per-task completion outcome, a
list whose length is the number of distinct input URLs, whose entries
follow the first-seen order of the deduplicated input, and in which every
URL with no completed task result carries an error-marked
`ScrapedContent`; completed results are passed through unchanged.  The
function is total (never raises). -/
theorem C3_scrape_urls_shape (urls : List String)
    (completed : List ScrapedContent) (now : ℚ) :
    (WebScraper.scrape_urls urls completed now).length = urls.toFinset.card ∧
      (WebScraper.scrape_urls urls completed now).map (fun r => r.url) =
        firstSeenDedup urls ∧
      ∀ r ∈ WebScraper.scrape_urls urls completed now,
        r ∈ completed ∨
          (r.error = some "未能完成爬取" ∧ ∀ c ∈ completed, c.url ≠ r.url) := by
  by_cases hurls : urls.isEmpty
  · have hnil : urls = [] := List.isEmpty_iff.mp hurls
    subst hnil
    refine ⟨by simp [WebScraper.scrape_urls], ?_, ?_⟩
    · simp [WebScraper.scrape_urls, firstSeenDedup]
    · intro r hr
      simp [WebScraper.scrape_urls] at hr
  · have hsu : WebScraper.scrape_urls urls completed now =
        (pyDedup urls).map (fun u =>
          match buildResultMap completed u with
          | some r => r
          | none =>
            { url := u, title := "", text := "", html := "", content_type := "",
              metadata := [], error := some "未能完成爬取", scrape_time := now }) := by
      rw [WebScraper.scrape_urls, if_neg hurls]
    have hmap : (WebScraper.scrape_urls urls completed now).map (fun r => r.url) =
        firstSeenDedup urls := by
      rw [hsu, List.map_map, ← pyDedup_eq_firstSeenDedup]
      conv_rhs => rw [show pyDedup urls = (pyDedup urls).map id from
        (List.map_id _).symm]
      apply List.map_congr_left
      intro u _
      simp only [Function.comp_apply, id]
      cases hbu : buildResultMap completed u with
      | some r => exact (buildResultMap_some u completed r hbu).2
      | none => rfl
    refine ⟨?_, hmap, ?_⟩
    · rw [hsu, List.length_map, pyDedup_eq_firstSeenDedup, length_firstSeenDedup]
    · intro r hr
      rw [hsu] at hr
      obtain ⟨u, hu, hbody⟩ := List.mem_map.mp hr
      cases hbu : buildResultMap completed u with
      | some r' =>
        simp only [hbu] at hbody
        left
        rw [← hbody]
        exact (buildResultMap_some u completed r' hbu).1
      | none =>
        simp only [hbu] at hbody
        right
        refine ⟨by rw [← hbody], ?_⟩
        intro c hc
        rw [← hbody]
        exact buildResultMap_none u completed hbu c hc

/-- C3 witness: the theorem applied at the spec's batch-length scenario
with no completed task: length 2 and per-entry error markers. -/
theorem C3_witness :
    (WebScraper.scrape_urls ["bad://x", "http://y"] [] 0).length = 2 ∧
      ∀ r ∈ WebScraper.scrape_urls ["bad://x", "http://y"] [] 0,
        r.error = some "未能完成爬取" := by
  constructor
  · exact (C3_scrape_urls_shape ["bad://x", "http://y"] [] 0).1.trans (by decide)
  · intro r hr
    rcases (C3_scrape_urls_shape ["bad://x", "http://y"] [] 0).2.2 r hr with
      hmem | ⟨herr, _⟩
    · exact absurd hmem (List.not_mem_nil r)
    · exact herr

/-- C6: until a host records at least 3 successes, `get_timeout` returns
the 10-second default; once it has at least 3 successes, it returns
`min(30, max(5, avg_response_time * 1.5))` computed from the running
average. -/
theorem C6_adaptive_timeout (domain : String) (obs : List Observation) :
    (obs.countP (fun o => o.success) < 3 →
      DomainReliability.get_timeout (DomainReliability.recordAll domain obs)
        domain = 10) ∧
    (3 ≤ obs.countP (fun o => o.success) →
      DomainReliability.get_timeout (DomainReliability.recordAll domain obs)
        domain =
        min 30 (max 5 ((recordMetrics obs).avg_response_time * (3 / 2 : ℚ)))) := by
  cases obs with
  | nil =>
    refine ⟨fun _ => rfl, fun h3 => ?_⟩
    simp at h3
  | cons o rest =>
    have hget : DomainReliability.get_timeout
        (DomainReliability.recordAll domain (o :: rest)) domain =
        (recordMetrics (o :: rest)).timeout := by
      rw [DomainReliability.get_timeout, recordAll_lookup_cons domain o rest]
    have hinv := foldl_update_timeout_inv (o :: rest) initMetrics
      (fun _ => rfl) (fun h => by simp [initMetrics] at h)
    have hsc := foldl_update_success_count (o :: rest) initMetrics
    rw [show (o :: rest).foldl DomainReliability.update_metrics initMetrics =
      recordMetrics (o :: rest) from rfl] at hinv hsc
    rw [show initMetrics.success_count = 0 from rfl, Nat.zero_add] at hsc
    constructor
    · intro hlt
      rw [hget]
      exact hinv.1 (by rw [hsc]; exact hlt)
    · intro hge
      rw [hget]
      exact hinv.2 (by rw [hsc]; exact hge)

/-- C6 witness: three successes with response times 2, 4 and 6 seconds
(mean 4) give the host the timeout `clamp(1.5 * 4, 5, 30) = 6`. -/
theorem C6_witness :
    3 ≤ ([⟨true, 2, none⟩, ⟨true, 4, none⟩, ⟨true, 6, none⟩] :
        List Observation).countP (fun o => o.success) ∧
      DomainReliability.get_timeout
        (DomainReliability.recordAll "example.com"
          [⟨true, 2, none⟩, ⟨true, 4, none⟩, ⟨true, 6, none⟩]) "example.com" =
        6 := by
  refine ⟨by decide, ?_⟩
  rw [(C6_adaptive_timeout "example.com"
    [⟨true, 2, none⟩, ⟨true, 4, none⟩, ⟨true, 6, none⟩]).2 (by decide)]
  norm_num [recordMetrics, DomainReliability.update_metrics, bumpCounts, bumpAvg,
    bumpHist, adjustTimeout, initMetrics]

/-- C7 counterexample: the same multiset of observations recorded in two
orders ends with different running averages when one observation has
zero elapsed time: a zero-time success is counted in `total_requests` by
later updates but contributes no time, so recording `(success, 0)` before
`(success, 6)` yields the average 3, after it the average 6. -/
theorem C7_counterexample :
    ([⟨true, 0, none⟩, ⟨true, 6, none⟩] : List Observation).Perm
        [⟨true, 6, none⟩, ⟨true, 0, none⟩] ∧
      (recordMetrics [⟨true, 0, none⟩, ⟨true, 6, none⟩]).avg_response_time = 3 ∧
      (recordMetrics [⟨true, 6, none⟩, ⟨true, 0, none⟩]).avg_response_time = 6 ∧
      (recordMetrics [⟨true, 0, none⟩, ⟨true, 6, none⟩]).avg_response_time ≠
        (recordMetrics [⟨true, 6, none⟩, ⟨true, 0, none⟩]).avg_response_time := by
  refine ⟨List.Perm.swap _ _ _, ?_, ?_, ?_⟩ <;>
    norm_num [recordMetrics, DomainReliability.update_metrics, bumpCounts,
      bumpAvg, bumpHist, adjustTimeout, initMetrics]

/-- C7 (amended): for multisets in which every observation has positive
elapsed time, the final `avg_response_time` is order-independent and
equals the arithmetic mean of the elapsed times; observations with zero
elapsed time break order-independence. -/
theorem C7_avg_order_independent_for_positive (l1 l2 : List Observation)
    (hperm : l1.Perm l2) (hpos : ∀ o ∈ l1, 0 < o.response_time) :
    (recordMetrics l1).avg_response_time =
        (recordMetrics l2).avg_response_time ∧
      (l1 ≠ [] → (recordMetrics l1).avg_response_time =
        (l1.map (fun o => o.response_time)).sum / (l1.length : ℚ)) := by
  have hpos2 : ∀ o ∈ l2, 0 < o.response_time := fun o ho =>
    hpos o (hperm.mem_iff.mpr ho)
  have h1 := recordMetrics_avg_spec l1 hpos
  have h2 := recordMetrics_avg_spec l2 hpos2
  have hlen : l1.length = l2.length := hperm.length_eq
  have hsum : (l1.map (fun o => o.response_time)).sum =
      (l2.map (fun o => o.response_time)).sum := (hperm.map _).sum_eq
  cases l1 with
  | nil =>
    have hnil2 : l2 = [] := hperm.symm.eq_nil
    subst hnil2
    exact ⟨rfl, fun h => absurd rfl h⟩
  | cons o rest =>
    have hne1 : (((o :: rest).length : ℕ) : ℚ) ≠ 0 :=
      Nat.cast_ne_zero.mpr (by simp)
    have havg1 : (recordMetrics (o :: rest)).avg_response_time =
        ((o :: rest).map (fun o => o.response_time)).sum /
          (((o :: rest).length : ℕ) : ℚ) :=
      (eq_div_iff hne1).mpr h1
    have hl2ne : l2 ≠ [] := by
      intro h
      rw [h] at hlen
      simp at hlen
    obtain ⟨o2, rest2, rfl⟩ : ∃ x xs, l2 = x :: xs := by
      cases l2 with
      | nil => exact absurd rfl hl2ne
      | cons x xs => exact ⟨x, xs, rfl⟩
    have hne2 : (((o2 :: rest2).length : ℕ) : ℚ) ≠ 0 :=
      Nat.cast_ne_zero.mpr (by simp)
    have havg2 : (recordMetrics (o2 :: rest2)).avg_response_time =
        ((o2 :: rest2).map (fun o => o.response_time)).sum /
          (((o2 :: rest2).length : ℕ) : ℚ) :=
      (eq_div_iff hne2).mpr h2
    refine ⟨?_, fun _ => havg1⟩
    rw [havg1, havg2, hsum, hlen]

/-- C7 witness: the amended theorem applied to a transposed pair of
positive-time observations: both orders end with the same average. -/
theorem C7_witness :
    ([⟨true, 2, none⟩, ⟨false, 4, none⟩] : List Observation).Perm
        [⟨false, 4, none⟩, ⟨true, 2, none⟩] ∧
      (recordMetrics [⟨true, 2, none⟩, ⟨false, 4, none⟩]).avg_response_time =
        (recordMetrics [⟨false, 4, none⟩, ⟨true, 2, none⟩]).avg_response_time := by
  refine ⟨List.Perm.swap _ _ _, ?_⟩
  exact (C7_avg_order_independent_for_positive
    [⟨true, 2, none⟩, ⟨false, 4, none⟩] [⟨false, 4, none⟩, ⟨true, 2, none⟩]
    (List.Perm.swap _ _ _)
    (by intro o ho; fin_cases ho <;> norm_num)).1

/-- C8: both cache readers report a miss — never a raised error — when
the backing file is absent, when its body is unreadable or corrupt, and
when its modification time is more than TTL seconds in the past. -/
theorem C8_cache_miss (enabled : Bool) (ttl now mtime : ℚ)
    (p : Option ScrapeCacheData) (q : Option (List SearchResult)) :
    WebScraper.check_cache enabled ttl now .absent = none ∧
      WebScraper.check_cache enabled ttl now (.present mtime none) = none ∧
      (now - mtime > ttl →
        WebScraper.check_cache enabled ttl now (.present mtime p) = none) ∧
      UnifiedSearcher.check_cache enabled ttl now .absent = none ∧
      UnifiedSearcher.check_cache enabled ttl now (.present mtime none) = none ∧
      (now - mtime > ttl →
        UnifiedSearcher.check_cache enabled ttl now (.present mtime q) = none) := by
  refine ⟨?_, ?_, ?_, ?_, ?_, ?_⟩
  · cases enabled <;> rfl
  · cases enabled <;> simp [WebScraper.check_cache]
  · intro h
    cases enabled <;> simp [WebScraper.check_cache, h]
  · cases enabled <;> rfl
  · cases enabled <;> simp [UnifiedSearcher.check_cache]
  · intro h
    cases enabled <;> simp [UnifiedSearcher.check_cache, h]

/-- C8 witness: with the default TTL of 86400 seconds, an entry whose
file is 90000 seconds old is a miss for both readers. -/
theorem C8_witness :
    (90000 : ℚ) - 0 > 86400 ∧
      WebScraper.check_cache true 86400 90000
        (.present 0 (some ⟨"http://u", "t", "x", "h", "text/html", [], none, 1⟩)) =
        none ∧
      UnifiedSearcher.check_cache true 86400 90000 (.present 0 (some [])) =
        none := by
  have h : (90000 : ℚ) - 0 > 86400 := by norm_num
  exact ⟨h,
    (C8_cache_miss true 86400 90000 0
      (some ⟨"http://u", "t", "x", "h", "text/html", [], none, 1⟩) (some [])).2.2.1 h,
    (C8_cache_miss true 86400 90000 0
      (some ⟨"http://u", "t", "x", "h", "text/html", [], none, 1⟩)
      (some [])).2.2.2.2.2 h⟩

/-- C10: the scraped-content cache round-trip truncates `html` to its
first 50000 characters while preserving `url`, `title` and `text`: for a
successful content saved by `_save_to_cache` and read back fresh by
`_check_cache`, the returned `html` is the 50000-character prefix of the
original, and differs from it whenever the original is longer. -/
theorem C10_cache_truncates_html (c : ScrapedContent) (now ttl readTime mtime : ℚ)
    (hs : c.is_successful = true) (hfresh : ¬(readTime - mtime > ttl)) :
    ∃ d, WebScraper.save_to_cache true c now = some d ∧
      ∃ r, WebScraper.check_cache true ttl readTime (.present mtime (some d)) =
          some r ∧
        r.url = c.url ∧ r.title = c.title ∧ r.text = c.text ∧
        r.html = sliceTo c.html 50000 ∧
        (50000 < c.html.length → r.html ≠ c.html) := by
  have hsave : WebScraper.save_to_cache true c now = some
      { url := c.url, title := c.title, text := c.text,
        html := sliceTo c.html 50000, content_type := c.content_type,
        metadata := c.metadata, error := c.error,
        scrape_time := if c.scrape_time = 0 then now else c.scrape_time } := by
    rw [WebScraper.save_to_cache]
    simp [hs]
  refine ⟨_, hsave, ?_⟩
  refine ⟨⟨c.url, c.title, c.text, sliceTo c.html 50000, c.content_type,
    c.metadata, c.error, if c.scrape_time = 0 then now else c.scrape_time⟩,
    ?_, rfl, rfl, rfl, rfl, ?_⟩
  · rw [WebScraper.check_cache]
    simp [hfresh]
  · intro hlen heq
    have hdata : (c.html.data.take 50000) = c.html.data :=
      congrArg String.data heq
    have htk : (c.html.data.take 50000).length = c.html.data.length := by
      rw [hdata]
    rw [List.length_take] at htk
    have hlen2 : 50000 < c.html.data.length := hlen
    have hle : min 50000 c.html.data.length ≤ 50000 := Nat.min_le_left _ _
    omega

/-- C10 witness: a successful content whose html is 50001 characters
long round-trips through the cache with its other fields intact; its
html comes back as the 50000-character prefix, not the original. -/
theorem C10_witness :
    ({ url := "http://big", title := "T", text := "body",
        html := ⟨List.replicate 50001 'a'⟩, content_type := "text/html",
        metadata := [], error := none,
        scrape_time := 1 } : ScrapedContent).is_successful = true ∧
      ∃ d, WebScraper.save_to_cache true
          { url := "http://big", title := "T", text := "body",
            html := ⟨List.replicate 50001 'a'⟩, content_type := "text/html",
            metadata := [], error := none, scrape_time := 1 } 5 = some d ∧
        ∃ r, WebScraper.check_cache true 86400 100 (.present 50 (some d)) =
            some r ∧
          r.url = "http://big" ∧ r.title = "T" ∧ r.text = "body" ∧
          r.html = sliceTo ⟨List.replicate 50001 'a'⟩ 50000 ∧
          (50000 < (⟨List.replicate 50001 'a'⟩ : String).length →
            r.html ≠ ⟨List.replicate 50001 'a'⟩) :=
  ⟨rfl, C10_cache_truncates_html
    { url := "http://big", title := "T", text := "body",
      html := ⟨List.replicate 50001 'a'⟩, content_type := "text/html",
      metadata := [], error := none, scrape_time := 1 } 5 86400 100 50 rfl
    (by norm_num)⟩

end Spec2Proof
